import Mathlib

/-
Verification of the forecasting engine of `kursova.py`.

The repository's single source file wires a Streamlit UI around one
algorithmic function, `forecast_weather(historical_df, forecast_days)`
(lines 32-86): it converts the `Date` column of the caller's dataframe to
datetimes, sets it as the index **in place**, builds three SARIMAX models
with hard-coded orders (1,1,1) and (1,1,1,12) over the `Temperature`,
`Humidity` and `WindSpeed` columns, fits each with `disp=False`, forecasts
`forecast_days` steps per channel, and returns a dataframe whose columns are
`Date` (the next `forecast_days` consecutive days after the last historical
date) and the three predicted-mean series.

The embedding below models the dataframe operations and the control flow of
`forecast_weather` directly from the source.  The numerical estimator and
forecaster live in the `statsmodels` library, whose code is not part of this
repository; those parts are modelled from the specification (differencing,
an innovation recursion with a sum-of-squared-innovations objective standing
in for the Gaussian log-likelihood, a bounded-iteration candidate search
with a convergence flag, structural data checks, and forecast projection
with undifferencing).  Each spec-modelled definition is marked as such in
its doc comment.

Values are rationals (the Python floats carry no claim-relevant rounding
behavior here); dates are day numbers (`Nat`), daily cadence making
"+1 day" into `+1`.
-/

set_option autoImplicit false

deriving instance DecidableEq for Except

namespace Kursova

/-- Error kinds named by the specification's error taxonomy (§7). -/
inductive ForecastError where
  | insufficientData
  | degenerateSeries
  | invalidHorizon
  deriving DecidableEq, Repr

/-- Model of the pandas dataframe produced by `get_historical_weather`
(lines 20-26): a `Date` column, a row index (initially a range index), and
the three measurement columns.  Dates are day numbers; values rationals. -/
structure DataFrame where
  index : List Nat
  dateCol : Option (List Nat)
  temperature : List ℚ
  humidity : List ℚ
  windSpeed : List ℚ
  deriving DecidableEq, Repr

/-- Line 33: `historical_df['Date'] = pd.to_datetime(historical_df['Date'])`.
Date entries are already modelled as parsed day numbers, so re-parsing the
column is the identity on this representation. -/
def DataFrame.to_datetime (df : DataFrame) : DataFrame := df

/-- Line 34: `historical_df.set_index('Date', inplace=True)` — the `Date`
column becomes the row index and is removed as a column.  The Python call
mutates the caller's object; the embedding threads the mutated value. -/
def DataFrame.set_index (df : DataFrame) : DataFrame :=
  { df with index := df.dateCol.getD [], dateCol := none }

/-- The state of the caller's dataframe after lines 33-34 have run. -/
def mutated (df : DataFrame) : DataFrame :=
  DataFrame.set_index (DataFrame.to_datetime df)

/-- `historical_df.index[-1]` (line 78): the last element of the index. -/
def lastIndex (df : DataFrame) : Nat :=
  df.index.getLastD 0

/-- A SARIMAX model specification as constructed at lines 45-51, 56-62 and
67-73: an endogenous series, the `(p,d,q)` order, the `(P,D,Q,s)` seasonal
order, and the two enforcement flags. -/
structure SARIMAX where
  endog : List ℚ
  order : Nat × Nat × Nat
  seasonal_order : Nat × Nat × Nat × Nat
  enforce_stationarity : Bool
  enforce_invertibility : Bool
  deriving DecidableEq, Repr

/-- Line 37: `temp_order = (1, 1, 1)`. -/
def temp_order : Nat × Nat × Nat := (1, 1, 1)

/-- Line 38: `temp_seasonal_order = (1, 1, 1, 12)`. -/
def temp_seasonal_order : Nat × Nat × Nat × Nat := (1, 1, 1, 12)

/-- Line 39: `humidity_order = (1, 1, 1)`. -/
def humidity_order : Nat × Nat × Nat := (1, 1, 1)

/-- Line 40: `humidity_seasonal_order = (1, 1, 1, 12)`. -/
def humidity_seasonal_order : Nat × Nat × Nat × Nat := (1, 1, 1, 12)

/-- Line 41: `wind_speed_order = (1, 1, 1)`. -/
def wind_speed_order : Nat × Nat × Nat := (1, 1, 1)

/-- Line 42: `wind_speed_seasonal_order = (1, 1, 1, 12)`. -/
def wind_speed_seasonal_order : Nat × Nat × Nat × Nat := (1, 1, 1, 12)

/-- Lines 45-51: the temperature model over `historical_df['Temperature']`,
with `enforce_stationarity=False, enforce_invertibility=False`. -/
def model_temperature (df : DataFrame) : SARIMAX :=
  { endog := df.temperature,
    order := temp_order,
    seasonal_order := temp_seasonal_order,
    enforce_stationarity := false,
    enforce_invertibility := false }

/-- Lines 56-62: the humidity model over `historical_df['Humidity']`. -/
def model_humidity (df : DataFrame) : SARIMAX :=
  { endog := df.humidity,
    order := humidity_order,
    seasonal_order := humidity_seasonal_order,
    enforce_stationarity := false,
    enforce_invertibility := false }

/-- Lines 67-73: the wind-speed model over `historical_df['WindSpeed']`. -/
def model_wind_speed (df : DataFrame) : SARIMAX :=
  { endog := df.windSpeed,
    order := wind_speed_order,
    seasonal_order := wind_speed_seasonal_order,
    enforce_stationarity := false,
    enforce_invertibility := false }

/-- Modelled from the spec (§4.1): the minimum number of observations the
fixed differencing orders admit, `d + D*s`; the spec's boundary rule (§8)
requires 13 daily points to fit and 12 to fail for orders
(1,1,1)x(1,1,1,12), matching `d + D*s = 13`. -/
def minObs (m : SARIMAX) : Nat :=
  m.order.2.1 + m.seasonal_order.2.1 * m.seasonal_order.2.2.2

/-- Modelled from the spec (§4.1): a series is degenerate when it has zero
variance, i.e. every value equals the first. -/
def isConstant (xs : List ℚ) : Bool :=
  xs.all (fun x => decide (x = xs.headD 0))

/-- Differencing at lag `s` (§4.1): element `i` of the result is
`xs[i+s] - xs[i]`; lag 1 is ordinary first-order differencing. -/
def diffLag (s : Nat) (xs : List ℚ) : List ℚ :=
  (xs.drop s).zipWith (fun a b => a - b) xs

/-- `n` rounds of differencing at lag `s`. -/
def diffsLag (s : Nat) : Nat → List ℚ → List ℚ
  | 0, xs => xs
  | n + 1, xs => diffLag s (diffsLag s n xs)

/-- Inverse of one round of lag-`s` differencing (§4.3 undifferencing):
given the pre-differencing history and future values on the differenced
scale, rebuild the future values on the undifferenced scale by cumulative
summation against the (extended) history at lag `s`. -/
def undiffLag (s : Nat) (hist fut : List ℚ) : List ℚ :=
  (fut.foldl (fun acc v => acc ++ [v + acc.getD (acc.length - s) 0]) hist).drop hist.length

/-- Inverse of `n` rounds of lag-`s` differencing of `hist`, innermost
round undone last. -/
def undiffs (s : Nat) : Nat → List ℚ → List ℚ → List ℚ
  | 0, _, fut => fut
  | n + 1, hist, fut => undiffs s n hist (undiffLag s (diffsLag s n hist) fut)

/-- Modelled from the spec (§4.2): the innovation sequence of the
ARMA(1,1)-style recursion `e_t = z_t - ar*z_(t-1) - ma*e_(t-1)` with zero
initialization, the per-step prediction errors the Kalman recursion
accumulates. -/
def innovations (p : ℚ × ℚ) (zs : List ℚ) : List ℚ :=
  (zs.foldl
    (fun (acc : List ℚ × ℚ × ℚ) z =>
      let e := z - p.1 * acc.2.1 - p.2 * acc.2.2
      (acc.1 ++ [e], z, e))
    (([] : List ℚ), (0 : ℚ), (0 : ℚ))).1

/-- Modelled from the spec (§4.2): the sum of squared innovations, the
fitting objective; for a fixed innovation variance the Gaussian
log-likelihood is monotone in this quantity, so minimizing it stands in for
maximizing the likelihood. -/
def sse (p : ℚ × ℚ) (zs : List ℚ) : ℚ :=
  (innovations p zs).foldl (fun a e => a + e * e) 0

/-- Modelled from the spec (§4.2 numerical policy): a trial coefficient
vector is admissible unless an enforcement flag imposes the corresponding
magnitude constraint; with both flags false every trial is admissible
("coefficients are optimized without constraint"). -/
def admissible (m : SARIMAX) (p : ℚ × ℚ) : Bool :=
  (!m.enforce_stationarity || decide (|p.1| < 1)) &&
  (!m.enforce_invertibility || decide (|p.2| < 1))

/-- Modelled from the spec (§4.2): the candidate coefficient vectors the
optimizer examines, starting from the zero vector. -/
def candidateGrid : List (ℚ × ℚ) :=
  [(0, 0), (1/2, 0), (-1/2, 0), (0, 1/2), (1/2, 1/2)]

/-- Outcome of a fit: the model, the best-found coefficients, the estimated
innovation variance, and whether the search completed within the iteration
cap (the convergence criterion). -/
structure FitResult where
  model : SARIMAX
  params : ℚ × ℚ
  sigma2 : ℚ
  converged : Bool
  deriving DecidableEq, Repr

/-- Modelled from the spec (§4.2): difference the series per the model
orders, scan the admissible candidates up to the iteration cap, keep the
best objective value seen, and record non-convergence (cap reached before
the candidate space was exhausted) only as a flag — the best-found
coefficients are returned either way. -/
def optimize (m : SARIMAX) (maxiter : Nat) : FitResult :=
  let zs := diffsLag m.seasonal_order.2.2.2 m.seasonal_order.2.1
      (diffsLag 1 m.order.2.1 m.endog)
  let admiss := candidateGrid.filter (fun p => admissible m p)
  let tried := admiss.take maxiter
  let best := tried.foldl (fun b p => if sse p zs < sse b zs then p else b) (0, 0)
  { model := m,
    params := best,
    sigma2 := sse best zs / (max 1 zs.length : ℚ),
    converged := decide (admiss.length ≤ maxiter) }

/-- Modelled from the spec (§4.1-4.2, §7): fitting first applies the
structural checks — insufficient data, then degenerate series — and only
then optimizes; optimizer non-convergence never produces an error.  The
`disp` flag (line 52: `disp=False`) only suppresses diagnostic output and
does not affect the result. -/
def fitMaxiter (m : SARIMAX) (_disp : Bool) (maxiter : Nat) :
    Except ForecastError FitResult :=
  if m.endog.length < minObs m then .error .insufficientData
  else if isConstant m.endog then .error .degenerateSeries
  else .ok (optimize m maxiter)

/-- Lines 52, 63, 74: `model.fit(disp=False)` with the library's default
iteration cap of 50. -/
def SARIMAX.fit (m : SARIMAX) (disp : Bool) : Except ForecastError FitResult :=
  fitMaxiter m disp 50

/-- Geometric continuation of the autoregressive recursion: `n` forecast
steps starting from `z`, each further step multiplying by `ar` (the moving
-average contribution vanishes beyond one step ahead, spec §4.3). -/
def arIter (ar z : ℚ) : Nat → List ℚ
  | 0 => []
  | n + 1 => z :: arIter ar (ar * z) n

/-- Modelled from the spec (§4.3): forecast on the fully differenced scale —
the one-step prediction `ar*z_n + ma*e_n` from the last observation and last
innovation, then the autoregressive continuation. -/
def forecastDiffed (p : ℚ × ℚ) (w : List ℚ) (k : Nat) : List ℚ :=
  arIter p.1 (p.1 * w.getLastD 0 + p.2 * (innovations p w).getLastD 0) k

/-- Modelled from the spec (§4.3): project the fitted model `k` steps ahead
— forecast on the differenced scale, undo the seasonal differencing against
the once-differenced history, then undo the regular differencing against the
original series, mapping predictions back to the original scale. -/
def FitResult.forecastMeans (r : FitResult) (k : Nat) : List ℚ :=
  let d := r.model.order.2.1
  let sD := r.model.seasonal_order.2.1
  let s := r.model.seasonal_order.2.2.2
  let base := diffsLag 1 d r.model.endog
  let w := diffsLag s sD base
  let wFut := forecastDiffed r.params w k
  let baseFut := undiffs s sD base wFut
  undiffs 1 d r.model.endog baseFut

/-- Lines 53, 64, 75: `result.get_forecast(steps=forecast_days)` returning
the `predicted_mean` series.  Modelled from the spec for the library part:
the forecaster "fails with `InvalidHorizonError` when horizon ≤ 0" (§4.3);
for a positive horizon it returns one predicted mean per step. -/
def get_forecast (r : FitResult) (steps : Int) : Except ForecastError (List ℚ) :=
  if steps ≤ 0 then .error .invalidHorizon
  else .ok (r.forecastMeans steps.toNat)

/-- Line 78: `pd.date_range(start, periods, freq='D')` over day numbers. -/
def date_range (start : Nat) (periods : Nat) : List Nat :=
  (List.range periods).map (fun i => start + i)

/-- Lines 79-84: the returned forecast dataframe, columns `Date`,
`Temperature`, `Humidity`, `WindSpeed`. -/
structure ForecastDF where
  Date : List Nat
  Temperature : List ℚ
  Humidity : List ℚ
  WindSpeed : List ℚ
  deriving DecidableEq, Repr

/-- The column list of the returned forecast dataframe, exactly the keys of
the dict literal at lines 79-84, dates cast to rationals so the columns
share one value type. -/
def ForecastDF.columns (o : ForecastDF) : List (String × List ℚ) :=
  [("Date", o.Date.map (fun n => (n : ℚ))),
   ("Temperature", o.Temperature),
   ("Humidity", o.Humidity),
   ("WindSpeed", o.WindSpeed)]

/-- Modelled from the spec (§3): a Forecast entry is
"(timestamp, predicted mean, confidence bound low, confidence bound high)"
per channel; over the three channels of this system a combined entry
carries `1 + 3*3` components. -/
def specForecastEntryComponents : Nat := 1 + 3 * 3

/-- Lines 32-86: `forecast_weather(historical_df, forecast_days)`.  The
first component of the result is the caller's dataframe as it stands after
the call (lines 33-34 mutate it in place); the second is the returned
forecast dataframe, or the first error raised.  The fit/forecast calls are
sequenced exactly as in the source: temperature fit (line 52), temperature
forecast (53), humidity fit (63), humidity forecast (64), wind-speed fit
(74), wind-speed forecast (75), then the date range (78) and the result
dataframe (79-84). -/
def forecast_weather (historical_df : DataFrame) (forecast_days : Int) :
    DataFrame × Except ForecastError ForecastDF :=
  (mutated historical_df,
    match SARIMAX.fit (model_temperature (mutated historical_df)) false with
    | .error e => .error e
    | .ok result_temperature =>
      match get_forecast result_temperature forecast_days with
      | .error e => .error e
      | .ok forecast_temperature =>
        match SARIMAX.fit (model_humidity (mutated historical_df)) false with
        | .error e => .error e
        | .ok result_humidity =>
          match get_forecast result_humidity forecast_days with
          | .error e => .error e
          | .ok forecast_humidity =>
            match SARIMAX.fit (model_wind_speed (mutated historical_df)) false with
            | .error e => .error e
            | .ok result_wind_speed =>
              match get_forecast result_wind_speed forecast_days with
              | .error e => .error e
              | .ok forecast_wind_speed =>
                .ok { Date := date_range (lastIndex (mutated historical_df) + 1)
                        forecast_days.toNat,
                      Temperature := forecast_temperature,
                      Humidity := forecast_humidity,
                      WindSpeed := forecast_wind_speed })

/-- Whether an outcome is a successful forecast. -/
def isOkE {α : Type} : Except ForecastError α → Bool
  | .ok _ => true
  | .error _ => false

/-- The temperature-relevant part of an outcome: the forecast dates and the
temperature column when the call succeeded. -/
def tempPart : Except ForecastError ForecastDF → Option (List Nat × List ℚ)
  | .ok o => some (o.Date, o.Temperature)
  | .error _ => none

/-! Concrete inputs used by witnesses and counterexamples: a 13-day
dataframe with non-constant columns, a variant differing only in humidity,
its 12-day truncation, and constant-temperature variants. -/

/-- Thirteen consecutive day numbers starting at day 100. -/
def dfWdates : List Nat := (List.range 13).map (fun i => 100 + i)

/-- A well-formed 13-day historical dataframe. -/
def dfW : DataFrame :=
  { index := List.range 13,
    dateCol := some dfWdates,
    temperature := [1, 2, 3, 1, 2, 3, 1, 2, 3, 1, 2, 3, 1],
    humidity := [50, 60, 50, 60, 50, 60, 50, 60, 50, 60, 50, 60, 50],
    windSpeed := [2, 3, 2, 3, 2, 3, 2, 3, 2, 3, 2, 3, 2] }

/-- Same dates and temperatures as `dfW`, different humidity values. -/
def dfW2 : DataFrame :=
  { dfW with humidity := [55, 65, 55, 65, 55, 65, 55, 65, 55, 65, 55, 65, 55] }

/-- A 12-day historical dataframe (one observation short). -/
def dfShort : DataFrame :=
  { index := List.range 12,
    dateCol := some ((List.range 12).map (fun i => 100 + i)),
    temperature := [1, 2, 3, 1, 2, 3, 1, 2, 3, 1, 2, 3],
    humidity := [50, 60, 50, 60, 50, 60, 50, 60, 50, 60, 50, 60],
    windSpeed := [2, 3, 2, 3, 2, 3, 2, 3, 2, 3, 2, 3] }

/-- A 12-day dataframe whose temperature series is constant. -/
def dfConst12 : DataFrame :=
  { dfShort with temperature := List.replicate 12 5 }

/-- A 13-day dataframe whose temperature series is constant. -/
def dfConst13 : DataFrame :=
  { dfW with temperature := List.replicate 13 5 }

/-- The witness dates list is nonempty. -/
theorem dfWdates_ne : dfWdates ≠ [] := by decide

/-! Length and inversion lemmas about the embedded operations. -/

theorem arIter_length (ar : ℚ) (n : Nat) : ∀ z : ℚ, (arIter ar z n).length = n := by
  induction n with
  | zero => intro z; rfl
  | succ k ih => intro z; simp [arIter, ih]

theorem undiffLag_foldl_length (s : Nat) (fut : List ℚ) :
    ∀ acc : List ℚ,
      (fut.foldl (fun acc v => acc ++ [v + acc.getD (acc.length - s) 0]) acc).length =
        acc.length + fut.length := by
  induction fut with
  | nil => intro acc; simp
  | cons v t ih =>
      intro acc
      rw [List.foldl_cons, ih]
      simp
      omega

theorem undiffLag_length (s : Nat) (hist fut : List ℚ) :
    (undiffLag s hist fut).length = fut.length := by
  unfold undiffLag
  rw [List.length_drop, undiffLag_foldl_length]
  omega

theorem undiffs_length (s n : Nat) (hist : List ℚ) :
    ∀ fut : List ℚ, (undiffs s n hist fut).length = fut.length := by
  induction n with
  | zero => intro fut; rfl
  | succ k ih =>
      intro fut
      simp [undiffs, ih, undiffLag_length]

theorem forecastDiffed_length (p : ℚ × ℚ) (w : List ℚ) (k : Nat) :
    (forecastDiffed p w k).length = k := by
  simp [forecastDiffed, arIter_length]

/-- Every forecast projection yields exactly the requested number of
predicted means. -/
theorem forecastMeans_length (r : FitResult) (k : Nat) :
    (r.forecastMeans k).length = k := by
  simp [FitResult.forecastMeans, undiffs_length, forecastDiffed_length]

theorem get_forecast_ok (r : FitResult) (steps : Int) (l : List ℚ)
    (h : get_forecast r steps = .ok l) :
    0 < steps ∧ l = r.forecastMeans steps.toNat := by
  by_cases hs : steps ≤ 0
  · simp [get_forecast, hs] at h
  · refine ⟨not_le.mp hs, ?_⟩
    simp only [get_forecast, if_neg hs, Except.ok.injEq] at h
    exact h.symm

/-- Structural fits never fail: once the data checks pass, fitting returns
the optimizer's best-found result. -/
theorem fitMaxiter_ok (m : SARIMAX) (d : Bool) (maxiter : Nat)
    (h1 : minObs m ≤ m.endog.length) (h2 : isConstant m.endog = false) :
    fitMaxiter m d maxiter = .ok (optimize m maxiter) := by
  simp [fitMaxiter, Nat.not_lt.mpr h1, h2]

/-- A fit reports insufficient data exactly when the series is shorter than
the minimum the model orders admit. -/
theorem fitMaxiter_insufficient_iff (m : SARIMAX) (d : Bool) (maxiter : Nat) :
    fitMaxiter m d maxiter = .error .insufficientData ↔ m.endog.length < minObs m := by
  unfold fitMaxiter
  split_ifs with h1 h2 <;> simp [h1]

/-- The first component of `forecast_weather` is the caller's dataframe
after the in-place mutation of lines 33-34. -/
theorem forecast_weather_fst (df : DataFrame) (h : Int) :
    (forecast_weather df h).1 = mutated df := rfl

/-- Inversion of a successful `forecast_weather` call: the horizon is
positive, all three fits succeeded, and the result is the dataframe of
lines 79-84 built from the date range of line 78 and the three
predicted-mean series. -/
theorem forecast_weather_ok_inv (df : DataFrame) (h : Int) (o : ForecastDF)
    (hok : (forecast_weather df h).2 = .ok o) :
    0 < h ∧ ∃ rT rH rW : FitResult,
      SARIMAX.fit (model_temperature (mutated df)) false = .ok rT ∧
      SARIMAX.fit (model_humidity (mutated df)) false = .ok rH ∧
      SARIMAX.fit (model_wind_speed (mutated df)) false = .ok rW ∧
      o = { Date := date_range (lastIndex (mutated df) + 1) h.toNat,
            Temperature := rT.forecastMeans h.toNat,
            Humidity := rH.forecastMeans h.toNat,
            WindSpeed := rW.forecastMeans h.toNat } := by
  unfold forecast_weather at hok
  cases hT : SARIMAX.fit (model_temperature (mutated df)) false with
  | error e => rw [hT] at hok; simp at hok
  | ok rT =>
    rw [hT] at hok
    by_cases hh : h ≤ 0
    · simp [get_forecast, hh] at hok
    · simp only [get_forecast, if_neg hh] at hok
      cases hH : SARIMAX.fit (model_humidity (mutated df)) false with
      | error e => rw [hH] at hok; simp at hok
      | ok rH =>
        rw [hH] at hok
        simp only [if_neg hh] at hok
        cases hW : SARIMAX.fit (model_wind_speed (mutated df)) false with
        | error e => rw [hW] at hok; simp at hok
        | ok rW =>
          rw [hW] at hok
          simp only [if_neg hh, Except.ok.injEq] at hok
          exact ⟨not_le.mp hh, rT, rH, rW, rfl, rfl, rfl, hok.symm⟩

/-! Claim theorems. -/

/-- C1: for every input series and every valid horizon, a returned forecast
has exactly `h` entries in every column, and its timestamps are the `h`
consecutive daily steps immediately following the last historical
timestamp. -/
theorem claimC1_horizon_and_dates (df : DataFrame) (ds : List Nat) (h : Int)
    (hok : isOkE (forecast_weather df h).2 = true)
    (hds : df.dateCol = some ds) (hne : ds ≠ []) :
    1 ≤ h ∧
    (forecast_weather df h).2.map (fun o => o.Date) =
      .ok ((List.range h.toNat).map (fun i => ds.getLast hne + 1 + i)) ∧
    (forecast_weather df h).2.map
        (fun o => (o.Date.length, o.Temperature.length, o.Humidity.length,
          o.WindSpeed.length)) =
      .ok (h.toNat, h.toNat, h.toNat, h.toNat) := by
  cases hE : (forecast_weather df h).2 with
  | error e => rw [hE] at hok; simp [isOkE] at hok
  | ok o =>
    obtain ⟨hpos, rT, rH, rW, hT, hH, hW, ho⟩ := forecast_weather_ok_inv df h o hE
    have hlast : lastIndex (mutated df) = ds.getLast hne := by
      show (df.dateCol.getD []).getLastD 0 = ds.getLast hne
      rw [hds]
      simp [List.getLastD_eq_getLast?, List.getLast?_eq_getLast ds hne]
    refine ⟨hpos, ?_, ?_⟩
    · rw [ho]
      simp [Except.map, date_range, hlast]
    · rw [ho]
      simp [Except.map, date_range, forecastMeans_length]

/-- C1 witness: on the concrete 13-day dataframe with horizon 2, the
forecast dates are day 113 and day 114. -/
theorem claimC1_witness :
    (forecast_weather dfW 2).2.map (fun o => o.Date) =
      .ok ((List.range (2 : Int).toNat).map
        (fun i => dfWdates.getLast dfWdates_ne + 1 + i)) :=
  (claimC1_horizon_and_dates dfW dfWdates 2 (by decide) rfl dfWdates_ne).2.1

/-- C2: the model orders are the fixed constants (1,1,1) and (1,1,1,12),
identical for all three channels and independent of the input — the caller
of `forecast_weather` has no way to tune them. -/
theorem claimC2_fixed_orders (df₁ df₂ : DataFrame) :
    (model_temperature df₁).order = (1, 1, 1) ∧
    (model_temperature df₁).seasonal_order = (1, 1, 1, 12) ∧
    (model_humidity df₁).order = (1, 1, 1) ∧
    (model_humidity df₁).seasonal_order = (1, 1, 1, 12) ∧
    (model_wind_speed df₁).order = (1, 1, 1) ∧
    (model_wind_speed df₁).seasonal_order = (1, 1, 1, 12) ∧
    (model_temperature df₁).order = (model_humidity df₂).order ∧
    (model_humidity df₁).order = (model_wind_speed df₂).order ∧
    (model_temperature df₁).seasonal_order = (model_humidity df₂).seasonal_order ∧
    (model_humidity df₁).seasonal_order = (model_wind_speed df₂).seasonal_order :=
  ⟨rfl, rfl, rfl, rfl, rfl, rfl, rfl, rfl, rfl, rfl⟩

/-- C3: every model is constructed with `enforce_stationarity=False` and
`enforce_invertibility=False`, and consequently no trial coefficient vector
is ever rejected by a magnitude constraint. -/
theorem claimC3_no_enforcement (df : DataFrame) (p : ℚ × ℚ) :
    (model_temperature df).enforce_stationarity = false ∧
    (model_temperature df).enforce_invertibility = false ∧
    (model_humidity df).enforce_stationarity = false ∧
    (model_humidity df).enforce_invertibility = false ∧
    (model_wind_speed df).enforce_stationarity = false ∧
    (model_wind_speed df).enforce_invertibility = false ∧
    admissible (model_temperature df) p = true ∧
    admissible (model_humidity df) p = true ∧
    admissible (model_wind_speed df) p = true := by
  refine ⟨rfl, rfl, rfl, rfl, rfl, rfl, ?_, ?_, ?_⟩ <;>
    simp [admissible, model_temperature, model_humidity, model_wind_speed]

/-- C4: once the structural data checks pass, fitting always completes with
the optimizer's best-found coefficients — non-convergence (the `converged`
flag being false) never turns into an error, and the `disp` flag does not
affect the result. -/
theorem claimC4_nonconvergence_never_fails (m : SARIMAX) (d₁ d₂ : Bool)
    (maxiter : Nat)
    (h1 : minObs m ≤ m.endog.length) (h2 : isConstant m.endog = false) :
    fitMaxiter m d₁ maxiter = .ok (optimize m maxiter) ∧
    isOkE (fitMaxiter m d₁ maxiter) = true ∧
    fitMaxiter m d₁ maxiter = fitMaxiter m d₂ maxiter ∧
    ((optimize m maxiter).converged = false →
      fitMaxiter m d₁ maxiter = .ok (optimize m maxiter)) ∧
    SARIMAX.fit m d₁ = .ok (optimize m 50) := by
  refine ⟨fitMaxiter_ok m d₁ maxiter h1 h2, ?_, ?_,
    fun _ => fitMaxiter_ok m d₁ maxiter h1 h2, fitMaxiter_ok m d₁ 50 h1 h2⟩
  · rw [fitMaxiter_ok m d₁ maxiter h1 h2]; rfl
  · rw [fitMaxiter_ok m d₁ maxiter h1 h2, fitMaxiter_ok m d₂ maxiter h1 h2]

/-- C4 witness: with an iteration cap of 1 the optimizer does not converge
on the concrete temperature model, yet the fit still returns its best-found
result. -/
theorem claimC4_witness :
    (optimize (model_temperature dfW) 1).converged = false ∧
    fitMaxiter (model_temperature dfW) false 1 =
      .ok (optimize (model_temperature dfW) 1) :=
  ⟨by decide,
   (claimC4_nonconvergence_never_fails (model_temperature dfW) false true 1
      (by decide) (by decide)).1⟩

/-- C5 counterexample: `forecast_weather` does not detect an invalid
horizon before numerical work and not without side effects.  With horizon 0
the caller's dataframe is still mutated, and on a too-short series with
horizon 0 the surfaced error is the data error, not the horizon error —
so the horizon is not checked first. -/
theorem claimC5_counterexample :
    (forecast_weather dfW 0).1 ≠ dfW ∧
    (forecast_weather dfShort 0).2 = .error .insufficientData ∧
    ForecastError.insufficientData ≠ ForecastError.invalidHorizon :=
  ⟨by decide, by decide, by decide⟩

/-- C5 amended: when the horizon is ≤ 0 and the temperature fit succeeds,
the call fails with the horizon error — but only inside the forecast step,
after the temperature model has been fit and after the caller's dataframe
has been mutated in place. -/
theorem claimC5_amended_late_detection (df : DataFrame) (h : Int) (hh : h ≤ 0)
    (hfit : isOkE (SARIMAX.fit (model_temperature (mutated df)) false) = true) :
    (forecast_weather df h).2 = .error .invalidHorizon ∧
    (forecast_weather df h).1 = mutated df := by
  refine ⟨?_, rfl⟩
  cases hT : SARIMAX.fit (model_temperature (mutated df)) false with
  | error e => rw [hT] at hfit; simp [isOkE] at hfit
  | ok rT =>
    unfold forecast_weather
    simp [hT, get_forecast, hh]

/-- C5 witness: on the concrete 13-day dataframe with horizon 0 the call
returns the horizon error (after fitting, not before). -/
theorem claimC5_witness :
    (forecast_weather dfW 0).2 = .error .invalidHorizon :=
  (claimC5_amended_late_detection dfW 0 (by decide) (by decide)).1

/-- C6: fitting reports insufficient data exactly when the series has fewer
than 13 observations (d + D*s for the fixed orders), for each of the three
channels; a 13-observation non-constant series fits successfully. -/
theorem claimC6_insufficient_boundary (df : DataFrame) (d : Bool) (maxiter : Nat) :
    (fitMaxiter (model_temperature df) d maxiter = .error .insufficientData ↔
      df.temperature.length < 13) ∧
    (fitMaxiter (model_humidity df) d maxiter = .error .insufficientData ↔
      df.humidity.length < 13) ∧
    (fitMaxiter (model_wind_speed df) d maxiter = .error .insufficientData ↔
      df.windSpeed.length < 13) ∧
    (df.temperature.length = 13 → isConstant df.temperature = false →
      isOkE (fitMaxiter (model_temperature df) d maxiter) = true) := by
  refine ⟨fitMaxiter_insufficient_iff (model_temperature df) d maxiter,
    fitMaxiter_insufficient_iff (model_humidity df) d maxiter,
    fitMaxiter_insufficient_iff (model_wind_speed df) d maxiter, ?_⟩
  intro hlen hconst
  have h1 : minObs (model_temperature df) ≤ (model_temperature df).endog.length := by
    show (13 : Nat) ≤ df.temperature.length
    omega
  rw [fitMaxiter_ok (model_temperature df) d maxiter h1 hconst]
  rfl

/-- C6 witness: the concrete 12-day series raises the insufficient-data
error and the concrete 13-day series fits. -/
theorem claimC6_witness :
    fitMaxiter (model_temperature dfShort) false 50 = .error .insufficientData ∧
    isOkE (fitMaxiter (model_temperature dfW) false 50) = true :=
  ⟨(claimC6_insufficient_boundary dfShort false 50).1.mpr (by decide),
   (claimC6_insufficient_boundary dfW false 50).2.2.2 (by decide) (by decide)⟩

/-- C7 counterexample: a constant series of 12 points fails with the
insufficient-data error, not the degenerate-series error, so not every
constant input series raises `DegenerateSeriesError`. -/
theorem claimC7_counterexample :
    isConstant dfConst12.temperature = true ∧
    SARIMAX.fit (model_temperature dfConst12) false = .error .insufficientData ∧
    (Except.error ForecastError.insufficientData :
        Except ForecastError FitResult) ≠ .error .degenerateSeries :=
  ⟨by decide, by decide, by decide⟩

/-- C7 amended: a constant series never yields a fit (hence never a
forecast), and every constant series long enough to pass the length check
fails with the degenerate-series error. -/
theorem claimC7_constant_series (df : DataFrame) (d : Bool) (maxiter : Nat)
    (hc : isConstant df.temperature = true) :
    isOkE (fitMaxiter (model_temperature df) d maxiter) = false ∧
    (13 ≤ df.temperature.length →
      fitMaxiter (model_temperature df) d maxiter = .error .degenerateSeries) := by
  constructor
  · unfold fitMaxiter
    split_ifs with hlt hcon
    · rfl
    · rfl
    · exact absurd hc (by simpa [model_temperature] using hcon)
  · intro hlen
    have hnl : ¬((model_temperature df).endog.length < minObs (model_temperature df)) := by
      show ¬(df.temperature.length < 13)
      omega
    unfold fitMaxiter
    rw [if_neg hnl, if_pos (show isConstant (model_temperature df).endog = true from hc)]

/-- C7 witness: the concrete constant 13-day series fails with the
degenerate-series error. -/
theorem claimC7_witness :
    SARIMAX.fit (model_temperature dfConst13) false = .error .degenerateSeries :=
  (claimC7_constant_series dfConst13 false 50 (by decide)).2 (by decide)

/-- C8 counterexample: a successful forecast carries exactly the four
columns `Date`, `Temperature`, `Humidity`, `WindSpeed` — one value per
channel plus the timestamp — while an entry of the specified Forecast shape
(timestamp plus mean, low bound and high bound for each of the three
channels) has ten components; no confidence bounds are carried. -/
theorem claimC8_counterexample :
    (forecast_weather dfW 2).2.map (fun o => o.columns.map Prod.fst) =
      .ok ["Date", "Temperature", "Humidity", "WindSpeed"] ∧
    (forecast_weather dfW 2).2.map (fun o => o.columns.length) = .ok 4 ∧
    (4 : Nat) ≠ specForecastEntryComponents :=
  ⟨by decide, by decide, by decide⟩

/-- C8 amended: every successful forecast surfaces only the date column and
the three predicted-mean columns; the temperature column is exactly the
temperature fit's predicted means and no bound columns exist. -/
theorem claimC8_means_only (df : DataFrame) (h : Int)
    (hok : isOkE (forecast_weather df h).2 = true) :
    (forecast_weather df h).2.map (fun o => o.columns.map Prod.fst) =
      .ok ["Date", "Temperature", "Humidity", "WindSpeed"] ∧
    (∃ rT, SARIMAX.fit (model_temperature (mutated df)) false = .ok rT ∧
      (forecast_weather df h).2.map (fun o => o.Temperature) =
        .ok (rT.forecastMeans h.toNat)) := by
  cases hE : (forecast_weather df h).2 with
  | error e => rw [hE] at hok; simp [isOkE] at hok
  | ok o =>
    obtain ⟨hpos, rT, rH, rW, hT, hH, hW, ho⟩ := forecast_weather_ok_inv df h o hE
    refine ⟨?_, rT, hT, ?_⟩ <;> rw [ho] <;> simp [Except.map, ForecastDF.columns]

/-- C8 witness: the concrete successful forecast has exactly the four
mean-only columns. -/
theorem claimC8_witness :
    (forecast_weather dfW 2).2.map (fun o => o.columns.map Prod.fst) =
      .ok ["Date", "Temperature", "Humidity", "WindSpeed"] :=
  (claimC8_means_only dfW 2 (by decide)).1

/-- C9: noninterference across channels — two inputs with the same dates
and the same temperature series (humidity and wind speed arbitrary) whose
calls both succeed produce identical temperature forecasts and forecast
dates. -/
theorem claimC9_channel_noninterference (df₁ df₂ : DataFrame) (h : Int)
    (hd : df₁.dateCol = df₂.dateCol) (ht : df₁.temperature = df₂.temperature)
    (h₁ : isOkE (forecast_weather df₁ h).2 = true)
    (h₂ : isOkE (forecast_weather df₂ h).2 = true) :
    tempPart (forecast_weather df₁ h).2 = tempPart (forecast_weather df₂ h).2 := by
  cases hE1 : (forecast_weather df₁ h).2 with
  | error e => rw [hE1] at h₁; simp [isOkE] at h₁
  | ok o₁ =>
    cases hE2 : (forecast_weather df₂ h).2 with
    | error e => rw [hE2] at h₂; simp [isOkE] at h₂
    | ok o₂ =>
      obtain ⟨hp1, rT1, rH1, rW1, hT1, _, _, ho1⟩ := forecast_weather_ok_inv df₁ h o₁ hE1
      obtain ⟨hp2, rT2, rH2, rW2, hT2, _, _, ho2⟩ := forecast_weather_ok_inv df₂ h o₂ hE2
      have hm : model_temperature (mutated df₁) = model_temperature (mutated df₂) := by
        simp [model_temperature, mutated, DataFrame.set_index, DataFrame.to_datetime, ht]
      have hr : rT1 = rT2 := by
        rw [hm, hT2, Except.ok.injEq] at hT1
        exact hT1.symm
      have hl : lastIndex (mutated df₁) = lastIndex (mutated df₂) := by
        show (df₁.dateCol.getD []).getLastD 0 = (df₂.dateCol.getD []).getLastD 0
        rw [hd]
      rw [ho1, ho2]
      simp [tempPart, hl, hr]

/-- C9 witness: permuting the humidity values of the concrete dataframe
leaves the temperature forecast unchanged. -/
theorem claimC9_witness :
    tempPart (forecast_weather dfW 2).2 = tempPart (forecast_weather dfW2 2).2 :=
  claimC9_channel_noninterference dfW dfW2 2 rfl rfl (by decide) (by decide)

/-- C10 counterexample: a fully successful call still leaves the caller's
dataframe changed — `forecast_weather` mutates its input in place
(lines 33-34), so the historical series object is not unchanged after the
call. -/
theorem claimC10_counterexample :
    (forecast_weather dfW 2).1 ≠ dfW ∧
    isOkE (forecast_weather dfW 2).2 = true :=
  ⟨by decide, by decide⟩

/-- C10 amended: `forecast_weather` always mutates the caller's dataframe
exactly as lines 33-34 do — the `Date` column is parsed and moved into the
index — while the three measurement columns themselves are unchanged, and
besides this mutation the only output is the returned forecast. -/
theorem claimC10_mutation_only (df : DataFrame) (h : Int) :
    (forecast_weather df h).1 = (df.to_datetime).set_index ∧
    (forecast_weather df h).1.temperature = df.temperature ∧
    (forecast_weather df h).1.humidity = df.humidity ∧
    (forecast_weather df h).1.windSpeed = df.windSpeed ∧
    (forecast_weather df h).1.index = df.dateCol.getD [] ∧
    (forecast_weather df h).1.dateCol = none :=
  ⟨rfl, rfl, rfl, rfl, rfl, rfl⟩

end Kursova
